import Mathlib

/-!
Verification of the course-recommendation engine of `src/maga/program_analyzer.py`
(data model from `src/maga/web_parser.py`).

Python strings are modelled as Lean `String`; `x in y` on strings is substring
containment (`hasSub`); `str.lower()` is `pyLower`, covering the ASCII and
Cyrillic alphabets that the engine's keyword tables and inputs use; floating
point scores are modelled as `ℚ` (every score contribution in the source is an
exact multiple of 0.5, so float arithmetic there is exact and agrees with `ℚ`).
Python dicts that are only iterated or looked up are modelled as association
lists in insertion order.
-/

namespace Maga

/-- Python `needle in haystack` prefix worker over char lists. -/
def listIsPrefix : List Char → List Char → Bool
  | [], _ => true
  | _ :: _, [] => false
  | a :: as, b :: bs => a == b && listIsPrefix as bs

/-- Python `needle in haystack` over char lists: some suffix starts with `needle`. -/
def listHasInfix (needle : List Char) : List Char → Bool
  | [] => needle.isEmpty
  | b :: bs => listIsPrefix needle (b :: bs) || listHasInfix needle bs

/-- Python `needle in hay` for strings (substring containment). -/
def hasSub (needle hay : String) : Bool :=
  listHasInfix needle.data hay.data

/-- Python `any(kw in hay for kw in kws)`. -/
def anyKw (kws : List String) (hay : String) : Bool :=
  kws.any (fun kw => hasSub kw hay)

/-- `str.lower()` on one character: ASCII `A`-`Z` (65-90), Cyrillic `А`-`Я`
(1040-1071) and `Ё` (1025) map to their lowercase forms; everything else is
unchanged. -/
def pyLowerChar (c : Char) : Char :=
  if 65 ≤ c.toNat && c.toNat ≤ 90 then Char.ofNat (c.toNat + 32)
  else if 1040 ≤ c.toNat && c.toNat ≤ 1071 then Char.ofNat (c.toNat + 32)
  else if c.toNat == 1025 then Char.ofNat 1105
  else c

/-- Python `s.lower()`. -/
def pyLower (s : String) : String :=
  String.mk (s.data.map pyLowerChar)

/-- Uppercase counterpart of `pyLowerChar`, used by `pyTitle`. -/
def pyUpperChar (c : Char) : Char :=
  if 97 ≤ c.toNat && c.toNat ≤ 122 then Char.ofNat (c.toNat - 32)
  else if 1072 ≤ c.toNat && c.toNat ≤ 1103 then Char.ofNat (c.toNat - 32)
  else if c.toNat == 1105 then Char.ofNat 1025
  else c

/-- A character that Python's `str.title()` treats as cased, for the ASCII and
Cyrillic alphabets used by the catalog. -/
def isCasedChar (c : Char) : Bool :=
  (65 ≤ c.toNat && c.toNat ≤ 90) || (97 ≤ c.toNat && c.toNat ≤ 122) ||
  (1040 ≤ c.toNat && c.toNat ≤ 1103) || c.toNat == 1025 || c.toNat == 1105

/-- Worker for `pyTitle`: the flag records whether the previous char was cased. -/
def pyTitleAux : Bool → List Char → List Char
  | _, [] => []
  | prevCased, c :: cs =>
    if isCasedChar c then
      (if prevCased then pyLowerChar c else pyUpperChar c) :: pyTitleAux true cs
    else c :: pyTitleAux false cs

/-- Python `s.title()`: first cased char of each run uppercased, the rest lowercased. -/
def pyTitle (s : String) : String :=
  String.mk (pyTitleAux false s.data)

/-- Insert into an ascending list, for Python's `sorted` over distinct keys. -/
def insertSortedNat (n : Nat) : List Nat → List Nat
  | [] => [n]
  | m :: ms => if n ≤ m then n :: m :: ms else m :: insertSortedNat n ms

/-- Python `sorted` on a list of naturals. -/
def sortNat (l : List Nat) : List Nat :=
  l.foldr insertSortedNat []

/-! ## Data model (`web_parser.py` dataclasses, `program_analyzer.py` dataclasses) -/

/-- `web_parser.Course`. -/
structure Course where
  name : String
  credits : Nat
  semester : Nat
  course_type : String
  description : Option String := none
  prerequisites : Option (List String) := none
  deriving Repr, DecidableEq

/-- `web_parser.Program`. -/
structure Program where
  name : String
  url : String
  description : String
  duration : Nat
  courses : List Course
  total_credits : Nat
  institute : String
  form : String
  language : String
  cost : Option String := none
  dormitory : Bool := false
  military_center : Bool := false
  accreditation : Bool := false
  deriving Repr, DecidableEq

/-- `program_analyzer.BackgroundProfile`. -/
structure BackgroundProfile where
  programming_skills : List String
  math_skills : List String
  business_skills : List String
  research_interests : List String
  work_experience : String
  education_level : String
  career_goals : List String
  learning_preferences : List String
  time_availability : String
  deriving Repr, DecidableEq

/-- `program_analyzer.Recommendation`. -/
structure Recommendation where
  course : Course
  score : ℚ
  reason : String
  priority : String
  compatibility_score : ℚ
  learning_path : String
  deriving Repr

/-! ## Profile extractor (`ProgramAnalyzer._analyze_background`, lines 443-733) -/

/-- `programming_keywords` table (lines 448-514), in insertion order. -/
def programming_keywords : List (String × List String) :=
  [("python", ["python", "питон", "программирую на python", "знаю python",
      "работаю с python"]),
   ("java", ["java", "джава", "программирую на java", "знаю java", "работаю с java"]),
   ("c++", ["c++", "cpp", "си плюс плюс", "программирую на c++", "знаю c++"]),
   ("javascript", ["javascript", "js", "джаваскрипт", "программирую на js", "знаю js"]),
   ("web", ["веб", "web", "html", "css", "frontend", "backend", "fullstack",
      "веб-разработка", "делаю сайты"]),
   ("mobile", ["мобильная разработка", "android", "ios", "react native", "flutter",
      "мобильные приложения", "разрабатываю приложения"]),
   ("blockchain", ["блокчейн", "blockchain", "криптовалюта", "смарт-контракт", "defi"]),
   ("ai", ["искусственный интеллект", "ai", "машинное обучение", "нейронные сети",
      "data science"]),
   ("data", ["данные", "data", "анализ данных", "big data", "база данных",
      "работаю с данными"]),
   ("devops", ["devops", "инфраструктура", "docker", "kubernetes", "ci/cd",
      "развертывание"]),
   ("general", ["техническое", "технический", "инженер", "инженерный", "разработка",
      "разработчик", "программирование", "код", "программист"])]

/-- The five negation phrases used to suppress programming skills (lines 519-522). -/
def negation_phrases : List String :=
  ["не знаю", "не умею", "не понимаю", "не владею", "не программирую"]

/-- `math_keywords` table (lines 526-560). -/
def math_keywords : List (String × List String) :=
  [("математика", ["математика", "математический", "алгебра", "геометрия", "анализ",
      "математик", "хорошо знаю математику", "силен в математике", "люблю математику"]),
   ("статистика", ["статистика", "статистический", "вероятность",
      "математическая статистика", "работаю со статистикой", "анализирую данные"]),
   ("линейная алгебра", ["линейная алгебра", "матрицы", "векторы",
      "линейные преобразования"]),
   ("математический анализ", ["математический анализ", "дифференциальные уравнения",
      "интегралы"]),
   ("дискретная математика", ["дискретная математика", "комбинаторика", "теория графов"]),
   ("алгоритмы", ["алгоритм", "алгоритмы", "структуры данных", "сложность",
      "оптимизация"]),
   ("логика", ["логика", "логический", "теория множеств", "математическая логика"])]

/-- `business_keywords` table (lines 568-620). -/
def business_keywords : List (String × List String) :=
  [("менеджмент", ["менеджмент", "управление", "бизнес", "предпринимательство",
      "менеджер", "руковожу", "управляю командой", "работаю в менеджменте"]),
   ("маркетинг", ["маркетинг", "реклама", "продвижение", "продажи", "маркетолог",
      "работаю в маркетинге", "занимаюсь продвижением"]),
   ("экономика", ["экономика", "экономический", "финансы", "бухгалтерия", "экономист",
      "работаю с финансами"]),
   ("проектное управление", ["проектное управление", "agile", "scrum", "kanban",
      "project manager", "управляю проектами", "работаю по agile"]),
   ("продукт", ["продукт", "product", "продуктовая аналитика", "product manager",
      "работаю с продуктами", "продуктовый менеджер"]),
   ("стратегия", ["стратегия", "стратегический", "планирование", "анализ рынка",
      "стратегическое планирование"])]

/-- `research_keywords` list (lines 628-635). -/
def research_keywords : List String :=
  ["исследование", "наука", "публикация", "конференция", "статья", "лаборатория"]

/-- `education_keywords` table (lines 641-652), in insertion order. -/
def education_keywords : List (String × List String) :=
  [("бакалавриат", ["бакалавр", "бакалавриат", "высшее образование"]),
   ("магистратура", ["магистр", "магистратура"]),
   ("аспирантура", ["аспирант", "аспирантура", "кандидат наук"]),
   ("техническое", ["техническое образование", "технический", "инженерное",
      "инженерный", "техническое"])]

/-- Word list that switches work experience to `"есть опыт"` (lines 662-682). -/
def work_experience_words : List String :=
  ["работаю", "работал", "опыт работы", "стаж", "программист", "разработчик",
   "инженер", "аналитик", "менеджер", "специалист", "опыт в разработке",
   "опыт разработки", "опыт", "разработка", "код", "программирование"]

/-- `career_keywords` table (lines 687-695). -/
def career_keywords : List (String × List String) :=
  [("ML Engineer", ["ml engineer", "машинное обучение", "инженер ml", "ml разработчик"]),
   ("Data Scientist", ["data scientist", "ученый по данным", "аналитик данных"]),
   ("AI Developer", ["ai developer", "разработчик ии", "разработчик ai"]),
   ("Product Manager", ["product manager", "продукт менеджер", "менеджер продукта"]),
   ("AI Product Manager", ["ai product manager", "продукт менеджер ai"]),
   ("Business Analyst", ["business analyst", "бизнес аналитик", "аналитик"]),
   ("AI Researcher", ["ai researcher", "исследователь ии", "ученый ии"])]

/-- `ProgramAnalyzer._analyze_background` (lines 443-733): keyword-table
classification of the free-text background, lower-cased once up front. -/
def analyze_background (background : String) : BackgroundProfile :=
  let background_lower := pyLower background
  let programming_skills :=
    (programming_keywords.filter
      (fun p => anyKw p.2 background_lower && !(anyKw negation_phrases background_lower))).map
      (fun p => p.1)
  let math_skills :=
    (math_keywords.filter (fun p => anyKw p.2 background_lower)).map (fun p => p.1)
  let business_skills :=
    (business_keywords.filter (fun p => anyKw p.2 background_lower)).map (fun p => p.1)
  let research_interests :=
    research_keywords.filter (fun kw => hasSub kw background_lower)
  let education_level :=
    match education_keywords.find? (fun p => anyKw p.2 background_lower) with
    | some p => p.1
    | none => "бакалавриат"
  let work_experience :=
    if anyKw work_experience_words background_lower then "есть опыт" else "нет опыта"
  let career_goals :=
    (career_keywords.filter (fun p => anyKw p.2 background_lower)).map (fun p => p.1)
  let learning_preferences :=
    (if anyKw ["практика", "проекты", "реальные задачи"] background_lower
      then ["практико-ориентированное"] else []) ++
    (if anyKw ["теория", "наука", "исследование"] background_lower
      then ["теоретическое"] else []) ++
    (if anyKw ["группа", "команда", "совместно"] background_lower
      then ["групповое"] else []) ++
    (if anyKw ["индивидуально", "самостоятельно"] background_lower
      then ["индивидуальное"] else [])
  let time_availability :=
    if anyKw ["полный день", "очная", "дневная"] background_lower then "полный день"
    else if anyKw ["вечерняя", "заочная", "частичная"] background_lower then "частичная"
    else "стандартная"
  { programming_skills := programming_skills
    math_skills := math_skills
    business_skills := business_skills
    research_interests := research_interests
    work_experience := work_experience
    education_level := education_level
    career_goals := career_goals
    learning_preferences := learning_preferences
    time_availability := time_availability }

/-- The archetype (`user_type`) derivation at the top of
`get_course_recommendations` (lines 356-369). -/
def derive_user_type (profile : BackgroundProfile) : String :=
  if !profile.programming_skills.isEmpty then
    if profile.programming_skills.contains "python" then "python_dev"
    else if profile.programming_skills.contains "java" then "java_dev"
    else "tech_dev"
  else if !profile.math_skills.isEmpty then "math_background"
  else if !profile.business_skills.isEmpty then "business_background"
  else "beginner"

/-! ## Knowledge base (`ProgramAnalyzer._build_skill_mapping`, lines 186-289) -/

/-- One entry of the skill map: matching course keywords, score weight, careers. -/
structure SkillInfo where
  courses : List String
  weight : ℚ
  career_paths : List String
  deriving Repr

/-- `self.skill_mapping` (lines 188-289), in insertion order. -/
def skill_mapping : List (String × SkillInfo) :=
  [("python", ⟨["программирование", "python", "код", "разработка"], 2,
      ["ML Engineer", "Data Scientist", "AI Developer"]⟩),
   ("java", ⟨["java", "джава", "программирование", "код"], 1.5,
      ["Software Engineer", "Backend Developer"]⟩),
   ("javascript", ⟨["javascript", "js", "веб", "web", "frontend"], 1.5,
      ["Frontend Developer", "Full-Stack Developer"]⟩),
   ("mathematics", ⟨["математика", "алгебра", "геометрия", "анализ"], 2,
      ["ML Engineer", "Data Scientist", "AI Researcher"]⟩),
   ("statistics", ⟨["статистика", "вероятность", "анализ данных"], 2.5,
      ["Data Scientist", "Data Analyst", "ML Engineer"]⟩),
   ("linear_algebra", ⟨["линейная алгебра", "матрицы", "векторы"], 2,
      ["ML Engineer", "Computer Vision Engineer", "AI Researcher"]⟩),
   ("business", ⟨["бизнес", "менеджмент", "управление", "стратегия"], 1.5,
      ["Product Manager", "AI Product Manager", "Business Analyst"]⟩),
   ("product_management", ⟨["продукт", "product", "управление продуктами"], 2,
      ["Product Manager", "AI Product Manager"]⟩),
   ("research", ⟨["исследование", "наука", "анализ", "публикация"], 1.5,
      ["AI Researcher", "Data Scientist", "ML Engineer"]⟩),
   ("general", ⟨["техническое", "технический", "инженер", "инженерный", "разработка",
      "разработчик", "программирование", "код"], 1.5,
      ["Software Engineer", "ML Engineer", "AI Developer"]⟩),
   ("c++", ⟨["c++", "cpp", "си плюс плюс", "программирование", "код", "разработка"], 1.5,
      ["Software Engineer", "Backend Developer", "ML Engineer"]⟩),
   ("web", ⟨["веб", "web", "html", "css", "frontend", "backend", "fullstack"], 1.5,
      ["Frontend Developer", "Full-Stack Developer", "Web Developer"]⟩),
   ("mobile", ⟨["мобильная разработка", "android", "ios", "react native", "flutter"], 1.5,
      ["Mobile Developer", "App Developer"]⟩),
   ("blockchain", ⟨["блокчейн", "blockchain", "криптовалюта", "смарт-контракт", "defi"],
      1.5, ["Blockchain Developer", "Smart Contract Developer"]⟩),
   ("ai", ⟨["искусственный интеллект", "ai", "машинное обучение", "нейронные сети",
      "data science"], 2, ["ML Engineer", "AI Developer", "Data Scientist"]⟩),
   ("data", ⟨["данные", "data", "анализ данных", "big data", "база данных"], 2,
      ["Data Scientist", "Data Engineer", "Data Analyst"]⟩),
   ("devops", ⟨["devops", "инфраструктура", "docker", "kubernetes", "ci/cd"], 1.5,
      ["DevOps Engineer", "Infrastructure Engineer"]⟩)]

/-! ## Cluster assigner (`ProgramAnalyzer._assign_course_to_cluster`, lines 145-184)

The Python method appends the course to the chosen cluster's `courses` list; we
model it by returning the key of the cluster the course is appended to (`none`
when no `append` is executed). -/

/-- Keywords of the introductory group (line 150). -/
def cluster_intro_keywords : List String := ["введение", "основы", "базовые"]

/-- Keywords of the machine-learning group (line 159). -/
def cluster_ml_keywords : List String := ["машинное обучение", "ml", "machine learning"]

/-- Keywords of the deep-learning group (line 165). -/
def cluster_dl_keywords : List String :=
  ["глубокое обучение", "deep learning", "нейронные сети"]

/-- Keywords of the NLP group (line 169). -/
def cluster_nlp_keywords : List String := ["естественный язык", "nlp", "текст"]

/-- Keywords of the computer-vision group (line 172). -/
def cluster_vision_keywords : List String := ["зрение", "vision", "изображения"]

/-- Keywords of the business group (line 176). -/
def cluster_business_keywords : List String :=
  ["бизнес", "предпринимательство", "стратегия"]

/-- Keywords of the analytics group (line 183). -/
def cluster_analytics_keywords : List String := ["анализ", "данные", "статистика"]

/-- `_assign_course_to_cluster` (lines 145-184): the `if`/`elif` chain over the
lower-cased course name; the introductory branch refines by sub-keywords and can
append to no cluster, the business branch refines into `business_ai` versus
`product_management`. -/
def assign_course_to_cluster (course : Course) : Option String :=
  let course_lower := pyLower course.name
  if anyKw cluster_intro_keywords course_lower then
    if hasSub "искусственный интеллект" course_lower || hasSub "ai" course_lower then
      some "ai_core"
    else if hasSub "продукт" course_lower || hasSub "менеджмент" course_lower then
      some "product_management"
    else if hasSub "анализ" course_lower || hasSub "данные" course_lower then
      some "data_analytics"
    else none
  else if anyKw cluster_ml_keywords course_lower then some "machine_learning"
  else if anyKw cluster_dl_keywords course_lower then some "deep_learning"
  else if anyKw cluster_nlp_keywords course_lower then some "nlp"
  else if anyKw cluster_vision_keywords course_lower then some "computer_vision"
  else if anyKw cluster_business_keywords course_lower then
    (if hasSub "ai" course_lower || hasSub "искусственный интеллект" course_lower then
      some "business_ai"
    else some "product_management")
  else if anyKw cluster_analytics_keywords course_lower then some "data_analytics"
  else none

/-- Spec-side view of cluster assignment (§4.3, §9 of the spec): an explicit
ordered rule, a keyword predicate plus an outcome. -/
structure ClusterRule where
  keywords : List String
  outcome : String → Option String

/-- Spec-side view: the ordered rule list introductory → ML → deep learning →
NLP → vision → business → analytics, written from the spec's words. -/
def cluster_rules : List ClusterRule :=
  [⟨cluster_intro_keywords, fun course_lower =>
      if hasSub "искусственный интеллект" course_lower || hasSub "ai" course_lower then
        some "ai_core"
      else if hasSub "продукт" course_lower || hasSub "менеджмент" course_lower then
        some "product_management"
      else if hasSub "анализ" course_lower || hasSub "данные" course_lower then
        some "data_analytics"
      else none⟩,
   ⟨cluster_ml_keywords, fun _ => some "machine_learning"⟩,
   ⟨cluster_dl_keywords, fun _ => some "deep_learning"⟩,
   ⟨cluster_nlp_keywords, fun _ => some "nlp"⟩,
   ⟨cluster_vision_keywords, fun _ => some "computer_vision"⟩,
   ⟨cluster_business_keywords, fun course_lower =>
      if hasSub "ai" course_lower || hasSub "искусственный интеллект" course_lower then
        some "business_ai"
      else some "product_management"⟩,
   ⟨cluster_analytics_keywords, fun _ => some "data_analytics"⟩]

/-- Spec-side view: evaluate an ordered rule list top-to-bottom; the first rule
whose keywords match decides the outcome. -/
def first_matching_cluster : List ClusterRule → String → Option String
  | [], _ => none
  | r :: rs, course_lower =>
    if anyKw r.keywords course_lower then r.outcome course_lower
    else first_matching_cluster rs course_lower

/-! ## Recommendation scorer (`_evaluate_course_intelligently`, lines 735-910) -/

/-- Generic technical course keywords of the programming block (lines 758-778). -/
def generic_programming_keywords : List String :=
  ["программирование", "код", "разработка", "алгоритм", "python", "java",
   "javascript", "ai", "data", "blockchain", "машинное обучение",
   "глубокое обучение", "нейронные сети", "обработка", "зрение", "анализ"]

/-- Generic course keywords of the math block (lines 797-813). -/
def generic_math_keywords : List String :=
  ["математика", "статистика", "анализ", "алгоритм", "алгебра", "геометрия",
   "машинное обучение", "глубокое обучение", "нейронные сети", "обработка",
   "зрение", "вероятности"]

/-- Generic course keywords of the business block (lines 832-842). -/
def generic_business_keywords : List String :=
  ["менеджмент", "бизнес", "продукт", "проект", "управление", "стратегия"]

/-- Course keywords of the research-interest bonus (line 861). -/
def research_course_keywords : List String := ["исследование", "наука", "анализ"]

/-- Course keywords of the work-experience bonus (line 868). -/
def practical_course_keywords : List String := ["практика", "проект", "реальный"]

/-- Course keywords of the education-level bonus (line 875). -/
def advanced_course_keywords : List String :=
  ["продвинутый", "углубленный", "исследование"]

/-- Introductory-difficulty keywords (`_assess_course_difficulty`, line 918). -/
def intro_difficulty_keywords : List String := ["введение", "основы", "базовые"]

/-- Advanced-difficulty keywords (`_assess_course_difficulty`, line 921). -/
def advanced_difficulty_keywords : List String :=
  ["продвинутый", "углубленный", "специальные"]

/-- Difficulty-reduction keywords for programming skills (line 929). -/
def programming_reduction_keywords : List String :=
  ["программирование", "код", "разработка"]

/-- Difficulty-reduction keywords for math skills (line 934). -/
def math_reduction_keywords : List String := ["математика", "алгебра", "статистика"]

/-- Difficulty-reduction keywords for business skills (line 939). -/
def business_reduction_keywords : List String := ["бизнес", "менеджмент", "управление"]

/-- One skill-category block of `_evaluate_course_intelligently` (the
programming block is lines 746-782; the math and business blocks repeat it with
their own generic lists). For each profile skill in order: if the skill is in
the skill map and a map keyword occurs in the course name, add the map weight
and stop; otherwise if a generic keyword occurs, add 2.0 and stop; otherwise
try the next skill. The same amount is added to score and compatibility. -/
def skill_category_score (generic : List String) (course_lower : String) :
    List String → ℚ
  | [] => 0
  | skill :: rest =>
    match List.lookup skill skill_mapping with
    | some skill_info =>
      if anyKw skill_info.courses course_lower then skill_info.weight
      else if anyKw generic course_lower then 2
      else skill_category_score generic course_lower rest
    | none =>
      if anyKw generic course_lower then 2
      else skill_category_score generic course_lower rest

/-- Career-goal term (lines 849-857): each goal adds 1.5 once if some skill-map
entry lists the lower-cased goal among its career paths (Python list membership,
i.e. exact string equality) and a keyword of that entry occurs in the course
name. -/
def career_goal_score (course_lower : String) (goals : List String) : ℚ :=
  goals.foldl
    (fun acc goal =>
      if skill_mapping.any
          (fun p => p.2.career_paths.contains (pyLower goal) &&
            anyKw p.2.courses course_lower)
      then acc + 1.5 else acc) 0

/-- Research-interest term (lines 860-864). -/
def research_interest_score (course_lower : String) (profile : BackgroundProfile) : ℚ :=
  if !profile.research_interests.isEmpty &&
      anyKw research_course_keywords course_lower then 1.5 else 0

/-- Work-experience bonus (lines 867-871). -/
def work_experience_score (course_lower : String) (profile : BackgroundProfile) : ℚ :=
  if profile.work_experience == "есть опыт" &&
      anyKw practical_course_keywords course_lower then 1 else 0

/-- Education-level bonus (lines 874-878). -/
def education_level_score (course_lower : String) (profile : BackgroundProfile) : ℚ :=
  if (profile.education_level == "магистратура" ||
        profile.education_level == "аспирантура") &&
      anyKw advanced_course_keywords course_lower then 1 else 0

/-- `_assess_course_difficulty` (lines 912-943): base difficulty from the course
name, minus 1.0 per matching-background skill category. -/
def assess_course_difficulty (course : Course) (profile : BackgroundProfile) : ℚ :=
  let course_lower := pyLower course.name
  let base_difficulty : ℚ :=
    if anyKw intro_difficulty_keywords course_lower then 1
    else if anyKw advanced_difficulty_keywords course_lower then 3
    else 2
  let prog_delta : ℚ :=
    if !profile.programming_skills.isEmpty &&
        anyKw programming_reduction_keywords course_lower then -1 else 0
  let math_delta : ℚ :=
    if !profile.math_skills.isEmpty &&
        anyKw math_reduction_keywords course_lower then -1 else 0
  let business_delta : ℚ :=
    if !profile.business_skills.isEmpty &&
        anyKw business_reduction_keywords course_lower then -1 else 0
  base_difficulty + (prog_delta + math_delta + business_delta)

/-- The accumulated `score` of `_evaluate_course_intelligently` just before the
zero-score check of line 893 (all additive terms of lines 739-882). -/
def course_score_raw (course : Course) (profile : BackgroundProfile) : ℚ :=
  skill_category_score generic_programming_keywords (pyLower course.name)
      profile.programming_skills
  + skill_category_score generic_math_keywords (pyLower course.name)
      profile.math_skills
  + skill_category_score generic_business_keywords (pyLower course.name)
      profile.business_skills
  + career_goal_score (pyLower course.name) profile.career_goals
  + research_interest_score (pyLower course.name) profile
  + work_experience_score (pyLower course.name) profile
  + education_level_score (pyLower course.name) profile
  + assess_course_difficulty course profile

/-- The accumulated `compatibility_score` (only the three skill blocks add to
it, lines 753, 780, 792, 815, 827, 844). -/
def course_compatibility_raw (course : Course) (profile : BackgroundProfile) : ℚ :=
  skill_category_score generic_programming_keywords (pyLower course.name)
      profile.programming_skills
  + skill_category_score generic_math_keywords (pyLower course.name)
      profile.math_skills
  + skill_category_score generic_business_keywords (pyLower course.name)
      profile.business_skills

/-- The `score` after the zero-score floor of lines 893-895. -/
def course_score_floored (course : Course) (profile : BackgroundProfile) : ℚ :=
  if course_score_raw course profile = 0 then 1 else course_score_raw course profile

/-- The priority derivation of lines 885-890, applied to the accumulated score
before the zero-score floor. -/
def priority_of_score (score : ℚ) : String :=
  if score ≥ 7 then "high"
  else if score ≥ 4 then "medium"
  else "low"

/-- Per-goal part of the career-goal advice of
`_generate_concrete_recommendation_reason` (lines 1093-1116); `none` when no
rule fires for this goal and the loop moves on. -/
def career_goal_reason (course_lower goal : String) : Option String :=
  let goal_lower := pyLower goal
  if (hasSub "ml engineer" goal_lower || hasSub "ai developer" goal_lower) &&
      (hasSub "машинное обучение" course_lower || hasSub "нейронные сети" course_lower)
  then some "Обязательный курс для ML Engineer! Даст ключевые навыки для карьеры"
  else if (hasSub "ml engineer" goal_lower || hasSub "ai developer" goal_lower) &&
      hasSub "алгоритм" course_lower
  then some "Важно для ML Engineer: понимание алгоритмов критично для разработки моделей"
  else if hasSub "data scientist" goal_lower &&
      (hasSub "статистика" course_lower || hasSub "анализ" course_lower)
  then some "Ключевой курс для Data Scientist! Статистика - основа анализа данных"
  else if hasSub "data scientist" goal_lower && hasSub "машинное обучение" course_lower
  then some "Обязательно для Data Scientist! ML - основной инструмент в работе"
  else if hasSub "product manager" goal_lower &&
      (hasSub "продукт" course_lower || hasSub "менеджмент" course_lower)
  then some "Идеально для Product Manager! Поможет управлять AI-продуктами"
  else if hasSub "product manager" goal_lower && hasSub "бизнес" course_lower
  then some "Важно для PM: понимание бизнес-аспектов AI-проектов"
  else none

/-- `_generate_concrete_recommendation_reason` (lines 1034-1148). Every branch
of the Python method returns, so its successive `if`/`elif` chains flatten into
one chain; the `if profile...` guards around `in`-membership tests are
redundant and folded into `contains`. The caller passes the floored score as
the `compatibility_score` argument (line 898). -/
def generate_concrete_recommendation_reason (course : Course)
    (profile : BackgroundProfile) (compatibility_score : ℚ) : String :=
  let course_lower := pyLower course.name
  if profile.programming_skills.contains "python" &&
      (hasSub "машинное обучение" course_lower || hasSub "нейронные сети" course_lower)
  then "Отличный выбор для Python-разработчиков! Этот курс даст вам практические навыки в ML"
  else if profile.programming_skills.contains "python" &&
      (hasSub "обработка" course_lower || hasSub "зрение" course_lower)
  then "Идеально подходит для Python-программистов. Вы сможете применить свои навыки в AI"
  else if profile.programming_skills.contains "python" && hasSub "алгоритм" course_lower
  then "Ваш опыт в Python поможет быстро освоить алгоритмы и структуры данных"
  else if profile.programming_skills.contains "java" &&
      hasSub "машинное обучение" course_lower
  then "Отличный выбор! Java отлично подходит для enterprise ML-решений"
  else if profile.programming_skills.contains "java" && hasSub "алгоритм" course_lower
  then "Ваши навыки в Java помогут эффективно реализовать алгоритмы"
  else if profile.math_skills.contains "математика" &&
      (hasSub "машинное обучение" course_lower || hasSub "нейронные сети" course_lower)
  then "Ваша математическая база идеальна для понимания ML-алгоритмов"
  else if profile.math_skills.contains "математика" && hasSub "статистика" course_lower
  then "Математическое образование поможет глубоко понять статистические методы"
  else if profile.math_skills.contains "математика" && hasSub "оптимизация" course_lower
  then "Математические навыки дадут вам преимущество в изучении оптимизации"
  else if profile.business_skills.contains "менеджмент" &&
      (hasSub "продукт" course_lower || hasSub "проект" course_lower)
  then "Отличный выбор для менеджеров! Курс поможет управлять AI-проектами"
  else if profile.business_skills.contains "менеджмент" && hasSub "бизнес" course_lower
  then "Ваш бизнес-опыт поможет понять, как применять AI в реальных проектах"
  else
    match profile.career_goals.findSome? (career_goal_reason course_lower) with
    | some r => r
    | none =>
      if profile.work_experience == "есть опыт" &&
          (hasSub "практика" course_lower || hasSub "проект" course_lower)
      then "Ваш опыт работы поможет успешно выполнять практические задания"
      else if profile.work_experience == "есть опыт" && hasSub "реальный" course_lower
      then "Опыт работы даст вам преимущество в понимании реальных применений"
      else if profile.education_level == "магистратура" &&
          (hasSub "продвинутый" course_lower || hasSub "углубленный" course_lower)
      then "Подходит для вашего уровня! Магистратура даст вам базу для сложных курсов"
      else if compatibility_score ≥ 4 then
        if !profile.programming_skills.isEmpty then
          "Отличный выбор для " ++ profile.programming_skills.headD "" ++
            "-разработчика! Курс идеально подходит вашему профилю"
        else if !profile.math_skills.isEmpty then
          "Отличный выбор! Ваши знания в " ++ profile.math_skills.headD "" ++
            " помогут быстро освоить материал"
        else "Отличный выбор! Курс хорошо соответствует вашему профилю"
      else if compatibility_score ≥ 2 then
        if profile.work_experience == "есть опыт" then
          "Хороший выбор для расширения кругозора. Ваш опыт работы поможет в освоении"
        else "Хороший выбор для развития новых навыков. Рекомендуем дополнительную подготовку"
      else "Курс может быть сложным для вашего профиля, но это отличная возможность для роста!"

/-- `_determine_learning_path` (lines 945-960); its profile and program
parameters are unused in the source. -/
def determine_learning_path (course : Course) : String :=
  if course.semester == 1 then "Рекомендуется изучать в первую очередь (1 семестр)"
  else if course.semester == 2 then "Изучать после освоения базовых дисциплин (2 семестр)"
  else if course.semester == 3 then "Изучать после освоения основных дисциплин (3 семестр)"
  else if course.semester == 4 then "Изучать в завершающем семестре (4 семестр)"
  else "Можно изучать в любом порядке"

/-- `_evaluate_course_intelligently` (lines 735-910): priority derives from the
accumulated score before the zero floor; the floored score feeds the reason
generator and, clamped at 10, becomes the returned score; compatibility is
clamped at 10. The local `reasons` list of the source is write-only (the
returned reason comes from `_generate_concrete_recommendation_reason`), so it
is not modelled. -/
def evaluate_course_intelligently (course : Course) (profile : BackgroundProfile)
    (_program : Program) : Recommendation :=
  { course := course
    score := min (course_score_floored course profile) 10
    reason := generate_concrete_recommendation_reason course profile
      (course_score_floored course profile)
    priority := priority_of_score (course_score_raw course profile)
    compatibility_score := min (course_compatibility_raw course profile) 10
    learning_path := determine_learning_path course }

/-! ## Program recommender (`get_course_recommendations`, lines 352-441) -/

/-- The AI-program condition of line 401: name contains the AI phrase, or
contains `"ai"` without `"product"`. -/
def ai_program_pattern (name : String) : Bool :=
  hasSub "искусственный интеллект" (pyLower name) ||
    (hasSub "ai" (pyLower name) && !(hasSub "product" (pyLower name)))

/-- The product-program condition of line 425. -/
def product_program_pattern (name : String) : Bool :=
  hasSub "продукт" (pyLower name) || hasSub "product" (pyLower name)

/-- The `ai_score`/`product_score` computation of lines 374-395. The source
computes these two counters but never reads them again; kept here for
completeness, unused by the report. -/
def ai_product_score (user_type : String) : Nat × Nat :=
  if user_type == "python_dev" then (3, 1)
  else if user_type == "java_dev" then (2, 1)
  else if user_type == "tech_dev" then (2, 2)
  else if user_type == "math_background" then (3, 0)
  else if user_type == "business_background" then (0, 3)
  else (1, 1)

/-- The body of the per-program loop of lines 398-439: the verdict line added
to the report for one program, `""` when the program name matches neither the
AI nor the product pattern (the loop then appends nothing). -/
def program_recommendation_line (user_type : String) (program : Program) : String :=
  if ai_program_pattern program.name then
    if user_type == "python_dev" then
      "🎯 " ++ program.name ++ ": 🔥 ЛУЧШИЙ ВЫБОР! Python + ML = идеальная комбинация\n"
    else if user_type == "java_dev" then
      "🎯 " ++ program.name ++ ": ⭐ Хорошо подходит! Enterprise AI с Java\n"
    else if user_type == "tech_dev" then
      "🎯 " ++ program.name ++ ": ⭐ Хорошо подходит! Ваши навыки программирования\n"
    else if user_type == "math_background" then
      "🎯 " ++ program.name ++ ": 🔥 ЛУЧШИЙ ВЫБОР! Математика = основа ML\n"
    else if user_type == "business_background" then
      "🎯 " ++ program.name ++ ": 💡 Можно рассмотреть, но не идеально\n"
    else "🎯 " ++ program.name ++ ": 💡 Хороший выбор для начала\n"
  else if product_program_pattern program.name then
    if user_type == "business_background" then
      "🎯 " ++ program.name ++ ": 🔥 ЛУЧШИЙ ВЫБОР! Бизнес + AI = идеально\n"
    else if user_type == "tech_dev" then
      "🎯 " ++ program.name ++ ": ⭐ Хорошо подходит! Техника + бизнес\n"
    else if user_type == "python_dev" || user_type == "java_dev" then
      "🎯 " ++ program.name ++ ": ⭐ Хорошо подходит! Программирование + продукт\n"
    else if user_type == "math_background" then
      "🎯 " ++ program.name ++ ": 💡 Можно рассмотреть, но не идеально\n"
    else "🎯 " ++ program.name ++ ": 💡 Хороший выбор для начала\n"
  else ""

/-- `get_course_recommendations` (lines 352-441): extract the profile, derive
the archetype, then append one verdict line per matching program to the header. -/
def get_course_recommendations (programs : List Program) (background : String) :
    String :=
  let profile := analyze_background background
  let user_type := derive_user_type profile
  programs.foldl
    (fun acc program => acc ++ program_recommendation_line user_type program)
    "💡 Рекомендации по дисциплинам:\n\n"

/-! ## Detail view (`get_detailed_program_info`, lines 315-350, and
`_find_program_by_name`, lines 1159-1165) -/

/-- `_find_program_by_name` (lines 1159-1165): first program whose lower-cased
name contains the lower-cased query. -/
def find_program_by_name (programs : List Program) (program_name : String) :
    Option Program :=
  programs.find?
    (fun program => hasSub (pyLower program_name) (pyLower program.name))

/-- Append a course under its key in an insertion-ordered group list (models a
Python dict of lists built with repeated appends). -/
def addGrouped {κ : Type} [BEq κ] (key : κ) (c : Course) :
    List (κ × List Course) → List (κ × List Course)
  | [] => [(key, [c])]
  | g :: gs => if g.1 == key then (g.1, g.2 ++ [c]) :: gs else g :: addGrouped key c gs

/-- The `by_semester` grouping of lines 326-330. -/
def group_by_semester (courses : List Course) : List (Nat × List Course) :=
  courses.foldl (fun acc c => addGrouped c.semester c acc) []

/-- The `by_type` grouping of lines 337-341. -/
def group_by_type (courses : List Course) : List (String × List Course) :=
  courses.foldl (fun acc c => addGrouped c.course_type c acc) []

/-- One course line of line 346. -/
def course_line (course : Course) : String :=
  "      • " ++ course.name ++ " (" ++ toString course.credits ++ " кредитов)\n"

/-- The body of the per-semester loop of lines 332-348. -/
def detailed_semester_info (by_semester : List (Nat × List Course))
    (semester : Nat) : String :=
  let courses := (List.lookup semester by_semester).getD []
  "📅 " ++ toString semester ++ " семестр (" ++ toString courses.length ++
      " дисциплин):\n" ++
    String.join ((group_by_type courses).map
      (fun tc => "   📖 " ++ pyTitle tc.1 ++ ":\n" ++
        String.join (tc.2.map course_line))) ++ "\n"

/-- The found-program report of lines 321-350: header, then the semester groups
in ascending semester order. -/
def detailed_program_text (program : Program) : String :=
  let by_semester := group_by_semester program.courses
  (sortNat (by_semester.map (fun g => g.1))).foldl
    (fun acc semester => acc ++ detailed_semester_info by_semester semester)
    ("🎯 " ++ program.name ++ "\n" ++ "🏛️  Институт: " ++ program.institute ++ "\n" ++
      "📖 Описание: " ++ program.description.take 200 ++ "...\n\n")

/-- `get_detailed_program_info` (lines 315-350): the not-found sentinel when the
fuzzy name lookup fails, otherwise the detailed report of the found program. -/
def get_detailed_program_info (programs : List Program) (program_name : String) :
    String :=
  match find_program_by_name programs program_name with
  | none => "❌ Программа не найдена"
  | some program => detailed_program_text program

/-! ## Keyword pool and concrete inputs used by the claims -/

/-- All course-name keywords tested by
`_generate_concrete_recommendation_reason` (lines 1034-1148). -/
def reason_rule_keywords : List String :=
  ["машинное обучение", "нейронные сети", "обработка", "зрение", "алгоритм",
   "статистика", "оптимизация", "продукт", "проект", "бизнес", "практика",
   "реальный", "продвинутый", "углубленный", "менеджмент", "анализ"]

/-- Every keyword any table of the scorer can test a course name against:
skill-map keyword lists, the three generic category lists, the
research/practical/advanced term lists, both difficulty keyword lists, the
three difficulty-reduction lists and the reason-rule keywords. -/
def scoring_keyword_pool : List String :=
  (skill_mapping.map (fun p => p.2.courses)).flatten ++
  generic_programming_keywords ++ generic_math_keywords ++
  generic_business_keywords ++ research_course_keywords ++
  practical_course_keywords ++ advanced_course_keywords ++
  intro_difficulty_keywords ++ advanced_difficulty_keywords ++
  programming_reduction_keywords ++ math_reduction_keywords ++
  business_reduction_keywords ++ reason_rule_keywords

/-- A course name that matches nothing in any scorer keyword table. -/
def no_scoring_keyword_hit (name : String) : Bool :=
  scoring_keyword_pool.all (fun kw => !(hasSub kw (pyLower name)))

/-- The background text of end-to-end scenario 1. -/
def scenario1_text : String :=
  "У меня есть опыт в программировании на Python и математике"

/-- The profile the extractor produces for `scenario1_text` (checked below). -/
def scenario1_profile : BackgroundProfile :=
  { programming_skills := ["python"]
    math_skills := ["математика"]
    business_skills := []
    research_interests := []
    work_experience := "есть опыт"
    education_level := "бакалавриат"
    career_goals := []
    learning_preferences := []
    time_availability := "стандартная" }

/-- The scenario-1 course: `"Машинное обучение"`, semester 2, elective. -/
def ml_elective_course : Course :=
  { name := "Машинное обучение", credits := 6, semester := 2,
    course_type := "выборная" }

/-- A sample program (the scorer's `program` argument is unused). -/
def sample_ai_program : Program :=
  { name := "Магистратура Искусственный интеллект", url := "", description := "",
    duration := 4, courses := [ml_elective_course], total_credits := 6,
    institute := "Институт", form := "очная", language := "русский" }

/-- A course whose name matches nothing in any scorer keyword table. -/
def plain_course : Course :=
  { name := "Философия", credits := 3, semester := 1, course_type := "выборная" }

/-- The profile of a background with no detected signal. -/
def baseline_profile : BackgroundProfile :=
  { programming_skills := []
    math_skills := []
    business_skills := []
    research_interests := []
    work_experience := "нет опыта"
    education_level := "бакалавриат"
    career_goals := []
    learning_preferences := []
    time_availability := "стандартная" }

/-- A course matched by both the introductory and the machine-learning cluster
keyword groups. -/
def intro_ml_course : Course :=
  { name := "Введение в машинное обучение", credits := 4, semester := 1,
    course_type := "выборная" }

/-- A program whose name matches neither the AI nor the product pattern. -/
def bio_program : Program :=
  { name := "Биоинформатика", url := "", description := "", duration := 4,
    courses := [], total_credits := 0, institute := "", form := "",
    language := "" }

/-- A program found by the fuzzy name lookup in the C8 witness. -/
def ai_sample_program : Program :=
  { name := "Искусственный интеллект", url := "", description := "Описание",
    duration := 4, courses := [], total_credits := 0, institute := "Институт",
    form := "очная", language := "русский" }

/-- The negation-suppression text of the spec (§8). -/
def negation_example_text : String := "я не знаю питон, но хорошо пишу на java"

/-! ## General helper lemmas -/

theorem lookup_mem {α β : Type} [BEq α] {a : α} {b : β} :
    ∀ {l : List (α × β)}, List.lookup a l = some b → ∃ a', (a', b) ∈ l := by
  intro l
  induction l with
  | nil => intro h; simp [List.lookup] at h
  | cons p ps ih =>
    intro h
    obtain ⟨k, v⟩ := p
    cases hak : (a == k) with
    | true =>
      simp only [List.lookup, hak] at h
      obtain rfl := Option.some.inj h
      exact ⟨k, List.mem_cons_self _ _⟩
    | false =>
      simp only [List.lookup, hak] at h
      obtain ⟨a', ha⟩ := ih h
      exact ⟨a', List.mem_cons_of_mem _ ha⟩

theorem find?_first {α : Type} (p : α → Bool) :
    ∀ (l : List α) (a : α), l.find? p = some a →
      p a = true ∧ ∃ pre post, l = pre ++ a :: post ∧ ∀ x ∈ pre, p x = false := by
  intro l
  induction l with
  | nil => intro a h; simp at h
  | cons b bs ih =>
    intro a h
    cases hb : p b with
    | true =>
      rw [List.find?_cons_of_pos _ hb] at h
      obtain rfl := Option.some.inj h
      exact ⟨hb, [], bs, rfl, by intro x hx; simp at hx⟩
    | false =>
      rw [List.find?_cons_of_neg _ (by simp [hb])] at h
      obtain ⟨hp, pre, post, hl, hpre⟩ := ih a h
      refine ⟨hp, b :: pre, post, by rw [List.cons_append, hl], ?_⟩
      intro x hx
      rcases List.mem_cons.mp hx with rfl | hx
      · exact hb
      · exact hpre x hx

theorem append_ne_empty_left (a x : String) (ha : a.data ≠ []) : a ++ x ≠ "" := by
  intro h
  apply ha
  have hd := congrArg String.data h
  rw [String.data_append] at hd
  exact (List.append_eq_nil.mp hd).1

theorem verdict_line_ne_empty (x y : String) : ("🎯 " ++ x ++ y) ≠ "" := by
  apply append_ne_empty_left
  rw [String.data_append]
  intro h
  exact absurd (List.append_eq_nil.mp h).1 (by decide)

theorem append_ne_of_head_ne (a x b : String) (ha : a.data ≠ [])
    (hh : a.data.head? ≠ b.data.head?) : a ++ x ≠ b := by
  intro h
  apply hh
  have hd := congrArg String.data h
  rw [String.data_append] at hd
  cases hcd : a.data with
  | nil => exact absurd hcd ha
  | cons c cs =>
    rw [hcd] at hd
    rw [← hd]
    rfl

theorem foldl_append_extract {α : Type} (g : α → String) :
    ∀ (l : List α) (acc : String),
      ∃ t, l.foldl (fun a s => a ++ g s) acc = acc ++ t := by
  intro l
  induction l with
  | nil => intro acc; exact ⟨"", by rw [List.foldl_nil, String.append_empty]⟩
  | cons s ss ih =>
    intro acc
    obtain ⟨t, ht⟩ := ih (acc ++ g s)
    exact ⟨g s ++ t, by rw [List.foldl_cons, ht, String.append_assoc]⟩

theorem anyKw_of_sub (cl : String) (sub big : List String)
    (hs : ∀ k ∈ sub, k ∈ big) (h : anyKw sub cl = true) : anyKw big cl = true := by
  rw [anyKw, List.any_eq_true] at h ⊢
  obtain ⟨k, hk, hh⟩ := h
  exact ⟨k, hs k hk, hh⟩

theorem anyKw_false_of_sub (cl : String) (sub big : List String)
    (hs : ∀ k ∈ sub, k ∈ big) (h : anyKw big cl = false) : anyKw sub cl = false := by
  rw [anyKw, List.any_eq_false] at h ⊢
  intro k hk
  exact h k (hs k hk)

/-! ## Scorer bound lemmas -/

theorem skill_mapping_weight_lb : ∀ p ∈ skill_mapping, (1.5 : ℚ) ≤ p.2.weight := by
  intro p hp
  simp only [skill_mapping, List.mem_cons, List.not_mem_nil, or_false] at hp
  rcases hp with rfl|rfl|rfl|rfl|rfl|rfl|rfl|rfl|rfl|rfl|rfl|rfl|rfl|rfl|rfl|rfl|rfl <;>
    norm_num

theorem skill_category_score_nonneg (generic : List String) (cl : String) :
    ∀ skills, 0 ≤ skill_category_score generic cl skills := by
  intro skills
  induction skills with
  | nil => rw [skill_category_score]
  | cons s rest ih =>
    rw [skill_category_score]
    cases hl : List.lookup s skill_mapping with
    | none =>
      dsimp only
      split
      · norm_num
      · exact ih
    | some info =>
      dsimp only
      split
      · obtain ⟨a', ha⟩ := lookup_mem hl
        have hw := skill_mapping_weight_lb _ ha
        dsimp only at hw
        linarith
      · split
        · norm_num
        · exact ih

theorem skill_category_score_ge (generic : List String) (cl : String)
    (skills : List String) (hne : skills ≠ []) (hg : anyKw generic cl = true) :
    (1.5 : ℚ) ≤ skill_category_score generic cl skills := by
  cases skills with
  | nil => exact absurd rfl hne
  | cons s rest =>
    rw [skill_category_score]
    cases hl : List.lookup s skill_mapping with
    | none =>
      dsimp only
      rw [if_pos hg]
      norm_num
    | some info =>
      dsimp only
      cases hmap : anyKw info.courses cl with
      | true =>
        rw [if_pos rfl]
        obtain ⟨a', ha⟩ := lookup_mem hl
        have hw := skill_mapping_weight_lb _ ha
        dsimp only at hw
        linarith
      | false =>
        rw [if_neg (by simp), if_pos hg]
        norm_num

theorem career_foldl_le (cl : String) :
    ∀ (goals : List String) (a : ℚ),
      a ≤ goals.foldl
        (fun acc goal =>
          if skill_mapping.any
              (fun p => p.2.career_paths.contains (pyLower goal) &&
                anyKw p.2.courses cl)
          then acc + 1.5 else acc) a := by
  intro goals
  induction goals with
  | nil => intro a; rw [List.foldl_nil]
  | cons g gs ih =>
    intro a
    rw [List.foldl_cons]
    refine le_trans ?_ (ih _)
    split
    · linarith
    · exact le_rfl

theorem career_goal_score_nonneg (cl : String) (goals : List String) :
    0 ≤ career_goal_score cl goals := by
  rw [career_goal_score]
  exact career_foldl_le cl goals 0

theorem research_interest_score_nonneg (cl : String) (profile : BackgroundProfile) :
    0 ≤ research_interest_score cl profile := by
  rw [research_interest_score]
  split <;> norm_num

theorem work_experience_score_nonneg (cl : String) (profile : BackgroundProfile) :
    0 ≤ work_experience_score cl profile := by
  rw [work_experience_score]
  split <;> norm_num

theorem education_level_score_nonneg (cl : String) (profile : BackgroundProfile) :
    0 ≤ education_level_score cl profile := by
  rw [education_level_score]
  split <;> norm_num

theorem reduction_sub_generic_prog :
    ∀ k ∈ programming_reduction_keywords, k ∈ generic_programming_keywords := by
  decide

theorem reduction_sub_generic_math :
    ∀ k ∈ math_reduction_keywords, k ∈ generic_math_keywords := by
  decide

theorem reduction_sub_generic_business :
    ∀ k ∈ business_reduction_keywords, k ∈ generic_business_keywords := by
  decide

/-- Each difficulty reduction fires only when the corresponding skill-category
block has already contributed at least 1.5, so block plus reduction is never
negative. -/
theorem block_with_delta_nonneg (generic redKw : List String) (cl : String)
    (skills : List String) (hsub : ∀ k ∈ redKw, k ∈ generic) :
    0 ≤ skill_category_score generic cl skills +
      (if (!skills.isEmpty && anyKw redKw cl) = true then (-1 : ℚ) else 0) := by
  cases hc : (!skills.isEmpty && anyKw redKw cl) with
  | false =>
    rw [if_neg (by simp)]
    have := skill_category_score_nonneg generic cl skills
    linarith
  | true =>
    rw [if_pos rfl]
    rw [Bool.and_eq_true] at hc
    obtain ⟨h1, h2⟩ := hc
    have hne : skills ≠ [] := List.isEmpty_eq_false.mp (by simpa using h1)
    have hge := skill_category_score_ge generic cl skills hne
      (anyKw_of_sub cl redKw generic hsub h2)
    linarith

/-- The accumulated score before the zero-score check is always at least 1. -/
theorem course_score_raw_ge_one (course : Course) (profile : BackgroundProfile) :
    1 ≤ course_score_raw course profile := by
  have hP := block_with_delta_nonneg generic_programming_keywords
    programming_reduction_keywords (pyLower course.name) profile.programming_skills
    reduction_sub_generic_prog
  have hM := block_with_delta_nonneg generic_math_keywords
    math_reduction_keywords (pyLower course.name) profile.math_skills
    reduction_sub_generic_math
  have hB := block_with_delta_nonneg generic_business_keywords
    business_reduction_keywords (pyLower course.name) profile.business_skills
    reduction_sub_generic_business
  have hC := career_goal_score_nonneg (pyLower course.name) profile.career_goals
  have hR := research_interest_score_nonneg (pyLower course.name) profile
  have hW := work_experience_score_nonneg (pyLower course.name) profile
  have hE := education_level_score_nonneg (pyLower course.name) profile
  have hbase : (1 : ℚ) ≤
      (if anyKw intro_difficulty_keywords (pyLower course.name) = true then 1
       else if anyKw advanced_difficulty_keywords (pyLower course.name) = true then 3
       else 2) := by
    split
    · exact le_rfl
    · split <;> norm_num
  simp only [course_score_raw, assess_course_difficulty]
  linarith

theorem course_score_raw_ne_zero (course : Course) (profile : BackgroundProfile) :
    course_score_raw course profile ≠ 0 := by
  have := course_score_raw_ge_one course profile
  intro h
  rw [h] at this
  norm_num at this

theorem course_score_floored_eq_raw (course : Course) (profile : BackgroundProfile) :
    course_score_floored course profile = course_score_raw course profile := by
  rw [course_score_floored, if_neg (course_score_raw_ne_zero course profile)]

theorem course_score_floored_ge_one (course : Course) (profile : BackgroundProfile) :
    1 ≤ course_score_floored course profile := by
  rw [course_score_floored_eq_raw]
  exact course_score_raw_ge_one course profile

theorem course_compatibility_raw_nonneg (course : Course)
    (profile : BackgroundProfile) :
    0 ≤ course_compatibility_raw course profile := by
  have h1 := skill_category_score_nonneg generic_programming_keywords
    (pyLower course.name) profile.programming_skills
  have h2 := skill_category_score_nonneg generic_math_keywords
    (pyLower course.name) profile.math_skills
  have h3 := skill_category_score_nonneg generic_business_keywords
    (pyLower course.name) profile.business_skills
  simp only [course_compatibility_raw]
  linarith

/-! ## Lemmas about courses matching no scorer keyword -/

theorem mapping_courses_in_pool :
    ∀ p ∈ skill_mapping, ∀ kw ∈ p.2.courses, kw ∈ scoring_keyword_pool := by
  decide

theorem anyKw_pool_false (name : String)
    (H : ∀ kw ∈ scoring_keyword_pool, hasSub kw (pyLower name) = false)
    (kws : List String) (hsub : ∀ k ∈ kws, k ∈ scoring_keyword_pool) :
    anyKw kws (pyLower name) = false := by
  rw [anyKw, List.any_eq_false]
  intro k hk
  simp [H k (hsub k hk)]

theorem skill_category_score_zero (generic : List String) (cl : String)
    (hg : anyKw generic cl = false)
    (hmap : ∀ p ∈ skill_mapping, anyKw p.2.courses cl = false) :
    ∀ skills, skill_category_score generic cl skills = 0 := by
  intro skills
  induction skills with
  | nil => rw [skill_category_score]
  | cons s rest ih =>
    rw [skill_category_score]
    cases hl : List.lookup s skill_mapping with
    | none =>
      dsimp only
      rw [if_neg (by simp [hg]), ih]
    | some info =>
      dsimp only
      obtain ⟨a', ha⟩ := lookup_mem hl
      have hinfo : anyKw info.courses cl = false := hmap (a', info) ha
      rw [if_neg (by simp [hinfo]), if_neg (by simp [hg]), ih]

theorem career_goal_score_zero (cl : String)
    (hmap : ∀ p ∈ skill_mapping, anyKw p.2.courses cl = false) :
    ∀ goals, career_goal_score cl goals = 0 := by
  have hany : ∀ goal : String,
      (skill_mapping.any (fun p => p.2.career_paths.contains (pyLower goal) &&
        anyKw p.2.courses cl)) = false := by
    intro goal
    rw [List.any_eq_false]
    intro p hp
    simp [hmap p hp]
  intro goals
  rw [career_goal_score]
  induction goals with
  | nil => rfl
  | cons g gs ih =>
    simp only [List.foldl_cons, hany g, Bool.false_eq_true, if_false]
    exact ih

theorem research_interest_score_zero (cl : String) (profile : BackgroundProfile)
    (h : anyKw research_course_keywords cl = false) :
    research_interest_score cl profile = 0 := by
  rw [research_interest_score, if_neg (by simp [h])]

theorem work_experience_score_zero (cl : String) (profile : BackgroundProfile)
    (h : anyKw practical_course_keywords cl = false) :
    work_experience_score cl profile = 0 := by
  rw [work_experience_score, if_neg (by simp [h])]

theorem education_level_score_zero (cl : String) (profile : BackgroundProfile)
    (h : anyKw advanced_course_keywords cl = false) :
    education_level_score cl profile = 0 := by
  rw [education_level_score, if_neg (by simp [h])]

theorem assess_course_difficulty_neutral (course : Course)
    (profile : BackgroundProfile)
    (h1 : anyKw intro_difficulty_keywords (pyLower course.name) = false)
    (h2 : anyKw advanced_difficulty_keywords (pyLower course.name) = false)
    (h3 : anyKw programming_reduction_keywords (pyLower course.name) = false)
    (h4 : anyKw math_reduction_keywords (pyLower course.name) = false)
    (h5 : anyKw business_reduction_keywords (pyLower course.name) = false) :
    assess_course_difficulty course profile = 2 := by
  simp only [assess_course_difficulty]
  rw [if_neg (by simp [h1]), if_neg (by simp [h2]), if_neg (by simp [h3]),
    if_neg (by simp [h4]), if_neg (by simp [h5])]
  norm_num

theorem no_hit_pool_false (course : Course)
    (h : no_scoring_keyword_hit course.name = true) :
    ∀ kw ∈ scoring_keyword_pool, hasSub kw (pyLower course.name) = false := by
  intro kw hkw
  have := List.all_eq_true.mp h kw hkw
  simpa using this

theorem course_score_raw_no_hit (course : Course) (profile : BackgroundProfile)
    (h : no_scoring_keyword_hit course.name = true) :
    course_score_raw course profile = 2 := by
  have H := no_hit_pool_false course h
  have hmap : ∀ p ∈ skill_mapping, anyKw p.2.courses (pyLower course.name) = false :=
    fun p hp => anyKw_pool_false course.name H p.2.courses (mapping_courses_in_pool p hp)
  simp only [course_score_raw]
  rw [skill_category_score_zero _ _ (anyKw_pool_false course.name H _ (by decide)) hmap,
    skill_category_score_zero _ _ (anyKw_pool_false course.name H _ (by decide)) hmap,
    skill_category_score_zero _ _ (anyKw_pool_false course.name H _ (by decide)) hmap,
    career_goal_score_zero _ hmap,
    research_interest_score_zero _ _ (anyKw_pool_false course.name H _ (by decide)),
    work_experience_score_zero _ _ (anyKw_pool_false course.name H _ (by decide)),
    education_level_score_zero _ _ (anyKw_pool_false course.name H _ (by decide)),
    assess_course_difficulty_neutral _ _
      (anyKw_pool_false course.name H _ (by decide))
      (anyKw_pool_false course.name H _ (by decide))
      (anyKw_pool_false course.name H _ (by decide))
      (anyKw_pool_false course.name H _ (by decide))
      (anyKw_pool_false course.name H _ (by decide))]
  norm_num

theorem course_compatibility_raw_no_hit (course : Course)
    (profile : BackgroundProfile) (h : no_scoring_keyword_hit course.name = true) :
    course_compatibility_raw course profile = 0 := by
  have H := no_hit_pool_false course h
  have hmap : ∀ p ∈ skill_mapping, anyKw p.2.courses (pyLower course.name) = false :=
    fun p hp => anyKw_pool_false course.name H p.2.courses (mapping_courses_in_pool p hp)
  simp only [course_compatibility_raw]
  rw [skill_category_score_zero _ _ (anyKw_pool_false course.name H _ (by decide)) hmap,
    skill_category_score_zero _ _ (anyKw_pool_false course.name H _ (by decide)) hmap,
    skill_category_score_zero _ _ (anyKw_pool_false course.name H _ (by decide)) hmap]
  norm_num

theorem career_goal_reason_none (cl : String)
    (hml : hasSub "машинное обучение" cl = false)
    (hns : hasSub "нейронные сети" cl = false)
    (halg : hasSub "алгоритм" cl = false)
    (hst : hasSub "статистика" cl = false)
    (han : hasSub "анализ" cl = false)
    (hprod : hasSub "продукт" cl = false)
    (hmen : hasSub "менеджмент" cl = false)
    (hbiz : hasSub "бизнес" cl = false) :
    ∀ goal, career_goal_reason cl goal = none := by
  intro goal
  rw [career_goal_reason]
  simp [hml, hns, halg, hst, han, hprod, hmen, hbiz]

theorem generate_reason_no_hit (course : Course) (profile : BackgroundProfile)
    (h : no_scoring_keyword_hit course.name = true) :
    generate_concrete_recommendation_reason course profile 2 =
      (if profile.work_experience == "есть опыт" then
        "Хороший выбор для расширения кругозора. Ваш опыт работы поможет в освоении"
      else
        "Хороший выбор для развития новых навыков. Рекомендуем дополнительную подготовку") := by
  have H := no_hit_pool_false course h
  have hml := H "машинное обучение" (by decide)
  have hns := H "нейронные сети" (by decide)
  have hobr := H "обработка" (by decide)
  have hzr := H "зрение" (by decide)
  have halg := H "алгоритм" (by decide)
  have hst := H "статистика" (by decide)
  have hopt := H "оптимизация" (by decide)
  have hprod := H "продукт" (by decide)
  have hproj := H "проект" (by decide)
  have hbiz := H "бизнес" (by decide)
  have hprak := H "практика" (by decide)
  have hreal := H "реальный" (by decide)
  have hpro := H "продвинутый" (by decide)
  have hugl := H "углубленный" (by decide)
  have hmen := H "менеджмент" (by decide)
  have hfind : profile.career_goals.findSome?
      (career_goal_reason (pyLower course.name)) = none :=
    List.findSome?_eq_none_iff.mpr
      (fun goal _ =>
        career_goal_reason_none (pyLower course.name) hml hns halg hst
          (H "анализ" (by decide)) hprod hmen hbiz goal)
  simp only [generate_concrete_recommendation_reason]
  rw [if_neg (by simp [hml, hns]), if_neg (by simp [hobr, hzr]),
    if_neg (by simp [halg]), if_neg (by simp [hml]), if_neg (by simp [halg]),
    if_neg (by simp [hml, hns]), if_neg (by simp [hst]), if_neg (by simp [hopt]),
    if_neg (by simp [hprod, hproj]), if_neg (by simp [hbiz]), hfind]
  rw [if_neg (by simp [hprak, hproj]), if_neg (by simp [hreal]),
    if_neg (by simp [hpro, hugl]), if_neg (by norm_num), if_pos (by norm_num)]

/-! ## Scenario-1 computation lemmas -/

theorem scenario1_profile_eq :
    analyze_background scenario1_text = scenario1_profile := by
  decide

theorem scenario1_raw_score :
    course_score_raw ml_elective_course scenario1_profile = 6 := by
  simp only [course_score_raw]
  rw [show skill_category_score generic_programming_keywords
        (pyLower ml_elective_course.name) scenario1_profile.programming_skills = 2
      from rfl,
    show skill_category_score generic_math_keywords
        (pyLower ml_elective_course.name) scenario1_profile.math_skills = 2
      from rfl,
    show skill_category_score generic_business_keywords
        (pyLower ml_elective_course.name) scenario1_profile.business_skills = 0
      from rfl,
    show career_goal_score (pyLower ml_elective_course.name)
        scenario1_profile.career_goals = 0 from rfl,
    show research_interest_score (pyLower ml_elective_course.name)
        scenario1_profile = 0 from rfl,
    show work_experience_score (pyLower ml_elective_course.name)
        scenario1_profile = 0 from rfl,
    show education_level_score (pyLower ml_elective_course.name)
        scenario1_profile = 0 from rfl,
    assess_course_difficulty_neutral ml_elective_course scenario1_profile
      (by decide) (by decide) (by decide) (by decide) (by decide)]
  norm_num

theorem scenario1_score_eq :
    (evaluate_course_intelligently ml_elective_course scenario1_profile
      sample_ai_program).score = 6 := by
  show min (course_score_floored ml_elective_course scenario1_profile) 10 = 6
  rw [course_score_floored_eq_raw, scenario1_raw_score,
    min_eq_left (by norm_num : (6 : ℚ) ≤ 10)]

theorem scenario1_priority_eq :
    (evaluate_course_intelligently ml_elective_course scenario1_profile
      sample_ai_program).priority = "medium" := by
  show priority_of_score (course_score_raw ml_elective_course scenario1_profile) =
    "medium"
  rw [scenario1_raw_score, priority_of_score, if_neg (by norm_num),
    if_pos (by norm_num)]

/-! ## Claim theorems -/

/-- Claim C1, counterexample: the course `"Философия"` matches nothing in any
keyword table, yet the scorer gives it score 2 (not 1) and its reason is not
the generic baseline-course reason. -/
theorem c1_counterexample :
    no_scoring_keyword_hit plain_course.name = true ∧
    (evaluate_course_intelligently plain_course baseline_profile
      sample_ai_program).score ≠ 1 ∧
    (evaluate_course_intelligently plain_course baseline_profile
      sample_ai_program).reason ≠ "Базовый курс для всех студентов" := by
  refine ⟨by decide, ?_, ?_⟩
  · show min (course_score_floored plain_course baseline_profile) 10 ≠ 1
    rw [course_score_floored_eq_raw,
      course_score_raw_no_hit plain_course baseline_profile (by decide),
      min_eq_left (by norm_num : (2 : ℚ) ≤ 10)]
    norm_num
  · show generate_concrete_recommendation_reason plain_course baseline_profile
      (course_score_floored plain_course baseline_profile) ≠
      "Базовый курс для всех студентов"
    rw [course_score_floored_eq_raw,
      course_score_raw_no_hit plain_course baseline_profile (by decide),
      generate_reason_no_hit plain_course baseline_profile (by decide)]
    decide

/-- Claim C1, amended: for every profile, a course whose name matches nothing
in any keyword table receives score exactly 2.0 (the neutral base difficulty),
priority low and compatibility 0; the zero-score floor never fires for it and
the generic baseline-course reason is not attached. -/
theorem c1_no_keyword_course_score (course : Course) (profile : BackgroundProfile)
    (program : Program) (h : no_scoring_keyword_hit course.name = true) :
    (evaluate_course_intelligently course profile program).score = 2 ∧
    (evaluate_course_intelligently course profile program).priority = "low" ∧
    (evaluate_course_intelligently course profile program).compatibility_score = 0 ∧
    (evaluate_course_intelligently course profile program).reason ≠
      "Базовый курс для всех студентов" := by
  have hraw := course_score_raw_no_hit course profile h
  have hfl : course_score_floored course profile = 2 := by
    rw [course_score_floored_eq_raw, hraw]
  refine ⟨?_, ?_, ?_, ?_⟩
  · show min (course_score_floored course profile) 10 = 2
    rw [hfl, min_eq_left (by norm_num : (2 : ℚ) ≤ 10)]
  · show priority_of_score (course_score_raw course profile) = "low"
    rw [hraw, priority_of_score, if_neg (by norm_num), if_neg (by norm_num)]
  · show min (course_compatibility_raw course profile) 10 = 0
    rw [course_compatibility_raw_no_hit course profile h,
      min_eq_left (by norm_num : (0 : ℚ) ≤ 10)]
  · show generate_concrete_recommendation_reason course profile
      (course_score_floored course profile) ≠ "Базовый курс для всех студентов"
    rw [hfl, generate_reason_no_hit course profile h]
    split
    · decide
    · decide

/-- Claim C1, witness: the amended theorem applied to the concrete course
`"Философия"` and the default profile. -/
theorem c1_no_keyword_course_score_witness :
    no_scoring_keyword_hit plain_course.name = true ∧
    (evaluate_course_intelligently plain_course baseline_profile
      sample_ai_program).score = 2 :=
  ⟨by decide,
    (c1_no_keyword_course_score plain_course baseline_profile sample_ai_program
      (by decide)).1⟩

/-- Claim C2, counterexample: for the scenario-1 text and the course
`"Машинное обучение"` the resulting priority tier is not `"high"`. -/
theorem c2_counterexample :
    (evaluate_course_intelligently ml_elective_course
      (analyze_background scenario1_text) sample_ai_program).priority ≠ "high" := by
  rw [scenario1_profile_eq, scenario1_priority_eq]
  decide

/-- Claim C2, amended: the scenario-1 profile has the programming tag
`python` and the math tag `математика`; scoring `"Машинное обучение"` adds the
generic programming keyword match (2.0), the generic math keyword match (2.0)
and the neutral difficulty term (2.0, no reduction fires), giving final score
6.0 and priority `"medium"`. -/
theorem c2_scenario1_amended :
    (analyze_background scenario1_text).programming_skills = ["python"] ∧
    (analyze_background scenario1_text).math_skills = ["математика"] ∧
    course_score_raw ml_elective_course (analyze_background scenario1_text) = 6 ∧
    (evaluate_course_intelligently ml_elective_course
      (analyze_background scenario1_text) sample_ai_program).score = 6 ∧
    (evaluate_course_intelligently ml_elective_course
      (analyze_background scenario1_text) sample_ai_program).priority = "medium" := by
  rw [scenario1_profile_eq]
  exact ⟨rfl, rfl, scenario1_raw_score, scenario1_score_eq, scenario1_priority_eq⟩

/-- Claim C3: for every course, profile and program, the returned
recommendation has score in [0, 10] and compatibility score in [0, 10]. -/
theorem c3_clamping_invariant (course : Course) (profile : BackgroundProfile)
    (program : Program) :
    0 ≤ (evaluate_course_intelligently course profile program).score ∧
    (evaluate_course_intelligently course profile program).score ≤ 10 ∧
    0 ≤ (evaluate_course_intelligently course profile program).compatibility_score ∧
    (evaluate_course_intelligently course profile program).compatibility_score ≤ 10 := by
  have h1 := course_score_floored_ge_one course profile
  have h2 := course_compatibility_raw_nonneg course profile
  refine ⟨?_, ?_, ?_, ?_⟩
  · show 0 ≤ min (course_score_floored course profile) 10
    exact le_min (by linarith) (by norm_num)
  · show min (course_score_floored course profile) 10 ≤ 10
    exact min_le_right _ _
  · show 0 ≤ min (course_compatibility_raw course profile) 10
    exact le_min h2 (by norm_num)
  · show min (course_compatibility_raw course profile) 10 ≤ 10
    exact min_le_right _ _

/-- Claim C5: if any of the five negation phrases occurs anywhere in the
lower-cased input, the extracted profile has no programming-skill tags at all;
in particular no `python` tag. -/
theorem c5_negation_suppression (background : String)
    (h : anyKw negation_phrases (pyLower background) = true) :
    (analyze_background background).programming_skills = [] ∧
    "python" ∉ (analyze_background background).programming_skills := by
  have hmain : (analyze_background background).programming_skills = [] := by
    simp only [analyze_background]
    have hfilter : (programming_keywords.filter
        (fun p => anyKw p.2 (pyLower background) &&
          !(anyKw negation_phrases (pyLower background)))) = [] :=
      List.filter_eq_nil_iff.mpr (fun p _ => by simp [h])
    rw [hfilter, List.map_nil]
  exact ⟨hmain, by rw [hmain]; exact List.not_mem_nil _⟩

/-- Claim C5, witness: the spec's example text contains the negation phrase
`"не знаю"`, and its profile has no programming tags (so no `python` tag). -/
theorem c5_negation_suppression_witness :
    anyKw negation_phrases (pyLower negation_example_text) = true ∧
    ((analyze_background negation_example_text).programming_skills = [] ∧
      "python" ∉ (analyze_background negation_example_text).programming_skills) :=
  ⟨by decide, c5_negation_suppression negation_example_text (by decide)⟩

theorem priority_of_score_cases (s : ℚ) :
    (priority_of_score s = "high" ↔ 7 ≤ s) ∧
    (priority_of_score s = "medium" ↔ 4 ≤ s ∧ s < 7) ∧
    (priority_of_score s = "low" ↔ s < 4) := by
  rw [priority_of_score]
  by_cases h7 : s ≥ 7
  · rw [if_pos h7]
    refine ⟨⟨fun _ => h7, fun _ => rfl⟩, ?_, ?_⟩
    · exact ⟨fun hh => absurd hh (by decide), fun hh => absurd hh.2 (not_lt.mpr h7)⟩
    · exact ⟨fun hh => absurd hh (by decide),
        fun hh => absurd (lt_of_le_of_lt h7 hh) (by norm_num)⟩
  · rw [if_neg h7]
    by_cases h4 : s ≥ 4
    · rw [if_pos h4]
      refine ⟨?_, ?_, ?_⟩
      · exact ⟨fun hh => absurd hh (by decide), fun hh => absurd hh h7⟩
      · exact ⟨fun _ => ⟨h4, not_le.mp h7⟩, fun _ => rfl⟩
      · exact ⟨fun hh => absurd hh (by decide), fun hh => absurd hh (not_lt.mpr h4)⟩
    · rw [if_neg h4]
      refine ⟨?_, ?_, ?_⟩
      · exact ⟨fun hh => absurd hh (by decide), fun hh => absurd hh h7⟩
      · exact ⟨fun hh => absurd hh (by decide), fun hh => absurd hh.1 h4⟩
      · exact ⟨fun _ => not_le.mp h4, fun _ => rfl⟩

/-- Claim C7: the priority tier is determined by the final pre-clamp score:
`high` iff it is at least 7, `medium` iff it is in [4, 7), `low` iff it is
below 4; and the threshold map sends 6.999 to `medium` and 7 to `high`. -/
theorem c7_priority_thresholds (course : Course) (profile : BackgroundProfile)
    (program : Program) :
    ((evaluate_course_intelligently course profile program).priority = "high" ↔
      7 ≤ course_score_floored course profile) ∧
    ((evaluate_course_intelligently course profile program).priority = "medium" ↔
      4 ≤ course_score_floored course profile ∧
        course_score_floored course profile < 7) ∧
    ((evaluate_course_intelligently course profile program).priority = "low" ↔
      course_score_floored course profile < 4) ∧
    priority_of_score (6.999 : ℚ) = "medium" ∧
    priority_of_score 7 = "high" := by
  have hc := priority_of_score_cases (course_score_raw course profile)
  have hpr : (evaluate_course_intelligently course profile program).priority =
      priority_of_score (course_score_raw course profile) := rfl
  rw [hpr, course_score_floored_eq_raw]
  refine ⟨hc.1, hc.2.1, hc.2.2, ?_, ?_⟩
  · rw [priority_of_score, if_neg (by norm_num), if_pos (by norm_num)]
  · rw [priority_of_score, if_pos (by norm_num)]

/-- Claim C9: the empty input yields the default profile (all tag lists empty,
baseline education, no work experience, standard time availability) and the
derived archetype is `beginner`. -/
theorem c9_empty_input_defaults :
    analyze_background "" =
      { programming_skills := [], math_skills := [], business_skills := [],
        research_interests := [], work_experience := "нет опыта",
        education_level := "бакалавриат", career_goals := [],
        learning_preferences := [], time_availability := "стандартная" } ∧
    derive_user_type (analyze_background "") = "beginner" :=
  ⟨by decide, by decide⟩

/-- Claim C10: the score accumulated before the zero-score check is always at
least 1, so the `score == 0` floor branch is unreachable and the returned score
is `min` of the accumulated score and 10, hence at least 1. -/
theorem c10_score_floor_unreachable (course : Course) (profile : BackgroundProfile)
    (program : Program) :
    1 ≤ course_score_raw course profile ∧
    course_score_raw course profile ≠ 0 ∧
    course_score_floored course profile = course_score_raw course profile ∧
    (evaluate_course_intelligently course profile program).score =
      min (course_score_raw course profile) 10 ∧
    1 ≤ (evaluate_course_intelligently course profile program).score := by
  refine ⟨course_score_raw_ge_one course profile,
    course_score_raw_ne_zero course profile,
    course_score_floored_eq_raw course profile, ?_, ?_⟩
  · show min (course_score_floored course profile) 10 = _
    rw [course_score_floored_eq_raw]
  · show 1 ≤ min (course_score_floored course profile) 10
    exact le_min (course_score_floored_ge_one course profile) (by norm_num)

/-- Claim C4, counterexample: the course `"Введение в машинное обучение"`
matches the keywords of both the introductory group and the machine-learning
group, yet is appended to no cluster at all (not exactly one). -/
theorem c4_counterexample :
    anyKw cluster_intro_keywords (pyLower intro_ml_course.name) = true ∧
    anyKw cluster_ml_keywords (pyLower intro_ml_course.name) = true ∧
    assign_course_to_cluster intro_ml_course = none :=
  ⟨by decide, by decide, by decide⟩

/-- Claim C4, amended: cluster assignment evaluates the ordered rule list
introductory → machine learning → deep learning → NLP → vision → business →
analytics top-to-bottom and the first group whose keywords match decides the
outcome, so every course joins at most one cluster; the introductory and
business groups refine the target cluster by sub-keywords, and an introductory
match with no matching sub-keyword joins no cluster even when a later group
matches. -/
theorem c4_first_match_rule_list (course : Course) :
    assign_course_to_cluster course =
      first_matching_cluster cluster_rules (pyLower course.name) := rfl

theorem verdict_line_iff (user_type : String) (program : Program) :
    (program_recommendation_line user_type program != "") =
      (ai_program_pattern program.name || product_program_pattern program.name) := by
  rw [program_recommendation_line]
  cases hai : ai_program_pattern program.name with
  | true =>
    simp only [Bool.true_or, if_pos rfl]
    simp only [bne_iff_ne, ne_eq, eq_iff_iff, iff_true]
    split_ifs <;> exact verdict_line_ne_empty _ _
  | false =>
    cases hprod : product_program_pattern program.name with
    | true =>
      rw [if_neg (by simp), if_pos rfl]
      simp only [Bool.false_or, bne_iff_ne, ne_eq, eq_iff_iff, iff_true]
      split_ifs <;> exact verdict_line_ne_empty _ _
    | false =>
      rw [if_neg (by simp), if_neg (by simp)]
      simp

/-- Claim C6, counterexample: a catalog with one program whose name matches
neither the AI nor the product pattern yields a report equal to the bare
header — no verdict line for that program at all. -/
theorem c6_counterexample :
    get_course_recommendations [bio_program] "" =
      "💡 Рекомендации по дисциплинам:\n\n" ∧
    hasSub bio_program.name (get_course_recommendations [bio_program] "") = false :=
  ⟨by decide, by decide⟩

/-- Claim C6, amended: for every archetype, a program contributes a (nonempty)
verdict line exactly when its name matches the AI pattern or the product
pattern, and the number of verdict lines in a report equals the number of
programs matching one of the two patterns — not the number of programs. -/
theorem c6_verdict_lines :
    (∀ (user_type : String) (program : Program),
      (program_recommendation_line user_type program != "") =
        (ai_program_pattern program.name || product_program_pattern program.name)) ∧
    (∀ (user_type : String) (programs : List Program),
      List.countP (fun line => line != "")
          (programs.map (program_recommendation_line user_type)) =
        List.countP
          (fun program => ai_program_pattern program.name ||
            product_program_pattern program.name) programs) := by
  refine ⟨verdict_line_iff, ?_⟩
  intro user_type programs
  rw [List.countP_map]
  exact List.countP_congr
    (fun p _ => by simp only [Function.comp_apply, verdict_line_iff user_type p])

theorem detailed_text_head (program : Program) :
    ∃ rest, detailed_program_text program = "🎯 " ++ (program.name ++ rest) := by
  simp only [detailed_program_text]
  obtain ⟨t, ht⟩ := foldl_append_extract
    (detailed_semester_info (group_by_semester program.courses))
    (sortNat ((group_by_semester program.courses).map (fun g => g.1)))
    ("🎯 " ++ program.name ++ "\n" ++ "🏛️  Институт: " ++ program.institute ++ "\n" ++
      "📖 Описание: " ++ program.description.take 200 ++ "...\n\n")
  rw [ht]
  simp only [String.append_assoc]
  exact ⟨_, rfl⟩

theorem detailed_text_ne_sentinel (program : Program) :
    detailed_program_text program ≠ "❌ Программа не найдена" := by
  obtain ⟨rest, hr⟩ := detailed_text_head program
  rw [hr]
  exact append_ne_of_head_ne "🎯 " (program.name ++ rest) "❌ Программа не найдена"
    (by decide) (by decide)

/-- Claim C8: the detail operation returns the not-found sentinel exactly when
no program name contains the query as a case-insensitive substring; otherwise
the first matching program in catalog order is the one reported (the report
opens with its name). -/
theorem c8_program_not_found (programs : List Program) (program_name : String) :
    (get_detailed_program_info programs program_name = "❌ Программа не найдена" ↔
      ∀ program ∈ programs,
        hasSub (pyLower program_name) (pyLower program.name) = false) ∧
    (∀ program, find_program_by_name programs program_name = some program →
      hasSub (pyLower program_name) (pyLower program.name) = true ∧
      (∃ pre post, programs = pre ++ program :: post ∧
        ∀ q ∈ pre, hasSub (pyLower program_name) (pyLower q.name) = false) ∧
      ∃ rest, get_detailed_program_info programs program_name =
        "🎯 " ++ (program.name ++ rest)) := by
  cases hf : find_program_by_name programs program_name with
  | none =>
    have hsent : get_detailed_program_info programs program_name =
        "❌ Программа не найдена" := by
      rw [get_detailed_program_info, hf]
    have hall := List.find?_eq_none.mp hf
    refine ⟨⟨fun _ => ?_, fun _ => hsent⟩, ?_⟩
    · intro program hp
      simpa using hall program hp
    · intro program hq
      exact absurd hq (by simp)
  | some p0 =>
    have hdet : get_detailed_program_info programs program_name =
        detailed_program_text p0 := by
      rw [get_detailed_program_info, hf]
    obtain ⟨hp0, pre, post, hsplit, hpre⟩ := find?_first _ programs p0 hf
    have hp0 : hasSub (pyLower program_name) (pyLower p0.name) = true := hp0
    refine ⟨⟨?_, ?_⟩, ?_⟩
    · intro habs
      rw [hdet] at habs
      exact absurd habs (detailed_text_ne_sentinel p0)
    · intro hall
      have hmem : p0 ∈ programs := by
        rw [hsplit]
        exact List.mem_append_right _ (List.mem_cons_self _ _)
      exact absurd hp0 (by simp [hall p0 hmem])
    · intro program hq
      obtain rfl := Option.some.inj hq
      obtain ⟨rest, hrest⟩ := detailed_text_head p0
      exact ⟨hp0, ⟨pre, post, hsplit, hpre⟩, rest, by rw [hdet, hrest]⟩

/-- Claim C8, witness: the lookup of `"интеллект"` in a one-program catalog
finds the program `"Искусственный интеллект"` and the detail report opens with
its name. -/
theorem c8_program_not_found_witness :
    ∃ rest, get_detailed_program_info [ai_sample_program] "интеллект" =
      "🎯 " ++ (ai_sample_program.name ++ rest) :=
  ((c8_program_not_found [ai_sample_program] "интеллект").2 ai_sample_program
    (by decide)).2.2

end Maga
